import Mathlib

/-!
Formal model of the chirouter forwarding-plane core (`src/src/c/router.c`).

The C source is shallowly embedded: raw-byte header views become Lean
structures (one structure per header entity, with multi-byte fields kept as
`Nat` in host order, so `htons`/`ntohs` and `in_addr_to_uint32` /
`uint32_to_in_addr` are modelled as the identity), in-place mutation of the
frame buffer becomes construction of an updated value, and transmission
(`chirouter_send_frame` / `chirouter_send_arp_message`) becomes an emitted
`TxEvent`.  The router context is explicit state threaded through
`chirouter_process_ethernet_frame`.  Null-pointer dereference in the source
is modelled by the `DispatchResult.crash` constructor; the missing `return`
on the final code path is `DispatchResult.undefRet`.

The repository contains only `router.c`; the helper modules it calls
(`arp.c`, `utils.c`) and the header layouts are modelled from the spec where
so marked.
-/

namespace Chirouter

/-! ## Protocol constants (standard header values used by `router.c`) -/

def ETHERTYPE_IP : Nat := 2048
def ETHERTYPE_IPV6 : Nat := 34525
def ETHERTYPE_ARP : Nat := 2054
def IPPROTO_ICMP : Nat := 1
def IPPROTO_TCP : Nat := 6
def IPPROTO_UDP : Nat := 17
def ICMPTYPE_ECHO_REPLY : Nat := 0
def ICMPTYPE_DEST_UNREACHABLE : Nat := 3
def ICMPTYPE_ECHO_REQUEST : Nat := 8
def ICMPTYPE_TIME_EXCEEDED : Nat := 11
def ICMPCODE_DEST_NET_UNREACHABLE : Nat := 0
def ICMPCODE_DEST_HOST_UNREACHABLE : Nat := 1
def ICMPCODE_DEST_PROTOCOL_UNREACHABLE : Nat := 2
def ICMPCODE_DEST_PORT_UNREACHABLE : Nat := 3
def ARP_OP_REQUEST : Nat := 1
def ARP_OP_REPLY : Nat := 2

/-- Modelled from the spec: the ICMP common-plus-union header size used by
`chirouter_send_icmp` (`ICMP_HDR_SIZE` in the missing `icmp.h`): type, code,
checksum and the 4-byte type-specific word that precede the body. -/
def ICMP_HDR_SIZE : Nat := 8

/-! ## Data model -/

/-- A router interface: link-layer (MAC) address and IP address
(`chirouter_interface_t`). -/
structure Interface where
  mac : List Nat
  ip : Nat
deriving DecidableEq, Repr

/-- View of the fixed 20-byte IPv4 header (`iphdr_t`).  Fields are in host
order; serialization to wire bytes is `ipHeaderBytes`. -/
structure IPHeader where
  version : Nat
  ihl : Nat
  tos : Nat
  len : Nat
  id : Nat
  off : Nat
  ttl : Nat
  proto : Nat
  cksum : Nat
  src : Nat
  dst : Nat
deriving DecidableEq, Repr

/-- View of the ARP packet at `frame->raw + sizeof(ethhdr_t)`
(`arp_packet_t`): opcode, sender hardware/protocol address, target
hardware/protocol address. -/
structure ArpView where
  op : Nat
  sha : List Nat
  spa : Nat
  tha : List Nat
  tpa : Nat
deriving DecidableEq, Repr

/-- An inbound Ethernet frame (`ethernet_frame_t`): the Ethernet header
fields, the bytes after the Ethernet header viewed as an IPv4 header
(`ip`), the raw bytes following that 20-byte header (`ipPayload`), the same
post-Ethernet region viewed as an ARP packet (`arp`), the ingress
interface, and the total frame length in bytes. -/
structure Frame where
  ethDst : List Nat
  ethSrc : List Nat
  ethType : Nat
  ip : IPHeader
  ipPayload : List Nat
  arp : ArpView
  inInterface : Interface
  length : Nat
deriving DecidableEq, Repr

/-- A routing-table entry (`chirouter_rtable_entry_t`): destination network,
mask, gateway (0 = directly connected), egress interface. -/
structure RtEntry where
  dest : Nat
  mask : Nat
  gw : Nat
  iface : Interface
deriving DecidableEq, Repr

/-- An ARP cache entry (`chirouter_arpcache_entry_t`). -/
structure ArpCacheEntry where
  ip : Nat
  mac : List Nat
deriving DecidableEq, Repr

/-- A pending ARP request (`chirouter_pending_arp_req_t`): target IP, the
interface the ARP request went out on, and the FIFO list of withheld
frames. -/
structure PendingReq where
  ip : Nat
  iface : Interface
  frames : List Frame
deriving DecidableEq, Repr

/-- The router context (`chirouter_ctx_t`): interfaces, routing table, ARP
cache and pending ARP requests. -/
structure Ctx where
  interfaces : List Interface
  routing_table : List RtEntry
  arp_cache : List ArpCacheEntry
  pending_arp_reqs : List PendingReq
deriving DecidableEq, Repr

/-! ## ICMP view accessors

The C code casts `frame->raw + sizeof(ethhdr_t) + sizeof(iphdr_t)` to
`icmp_packet_t*`; here the same region is `Frame.ipPayload`, and these
accessors read the ICMP fields out of it.  Reading past the end of the
buffer (undefined behavior in C) yields 0. -/

def mk16 (a b : Nat) : Nat := a % 256 * 256 + b % 256

def icmpTypeOf (f : Frame) : Nat := f.ipPayload.getD 0 0

def icmpEchoId (f : Frame) : Nat := mk16 (f.ipPayload.getD 4 0) (f.ipPayload.getD 5 0)

def icmpEchoSeq (f : Frame) : Nat := mk16 (f.ipPayload.getD 6 0) (f.ipPayload.getD 7 0)

def icmpEchoPayload (f : Frame) : List Nat := f.ipPayload.drop ICMP_HDR_SIZE

/-- Model of `memcpy` from a byte region: read `n` bytes starting at offset
`off`; bytes beyond the region (an out-of-bounds read in C) are 0. -/
def memBytes (l : List Nat) (off n : Nat) : List Nat :=
  (List.range n).map (fun i => l.getD (off + i) 0)

/-! ## Internet checksum -/

/-- Pair up bytes into big-endian 16-bit words (odd trailing byte padded
with zero). -/
def wordsOfBytes : List Nat → List Nat
  | [] => []
  | [a] => [mk16 a 0]
  | a :: b :: rest => mk16 a b :: wordsOfBytes rest

/-- One end-around-carry folding step of a ones-complement sum. -/
def foldCarry (s : Nat) : Nat := s % 65536 + s / 65536

/-- Modelled from the spec: `cksum` lives in the missing `utils.c`; it is
the standard Internet checksum of a byte region - the complement of the
end-around-carry ones-complement sum of its 16-bit words.  It does not zero
any field itself (call sites that want the checksum field zeroed must zero
it first). -/
def cksum (bytes : List Nat) : Nat :=
  65535 - foldCarry (foldCarry ((wordsOfBytes bytes).foldl (· + ·) 0))

/-- Wire-byte serialization of the 20-byte IPv4 header, big-endian
multi-byte fields, version in the high nibble of byte 0. -/
def ipHeaderBytes (h : IPHeader) : List Nat :=
  [h.version % 16 * 16 + h.ihl % 16, h.tos % 256,
   h.len / 256 % 256, h.len % 256,
   h.id / 256 % 256, h.id % 256,
   h.off / 256 % 256, h.off % 256,
   h.ttl % 256, h.proto % 256,
   h.cksum / 256 % 256, h.cksum % 256,
   h.src / 16777216 % 256, h.src / 65536 % 256, h.src / 256 % 256, h.src % 256,
   h.dst / 16777216 % 256, h.dst / 65536 % 256, h.dst / 256 % 256, h.dst % 256]

/-! ## Outputs -/

/-- The ICMP reply frame built by `chirouter_send_icmp`: Ethernet header,
IP header, ICMP type/code/checksum, the 4-byte type-specific word (echo
identifier and sequence number; zero for error messages), the body bytes
after the 8-byte ICMP header, and the total frame length. -/
structure IcmpReply where
  ethDst : List Nat
  ethSrc : List Nat
  ethType : Nat
  ip : IPHeader
  icmpType : Nat
  icmpCode : Nat
  icmpChksum : Nat
  echoId : Nat
  echoSeq : Nat
  body : List Nat
  totalLen : Nat
deriving DecidableEq, Repr

/-- A transmission performed by the router: a (possibly modified) existing
frame sent via `chirouter_send_frame`, a synthesized ICMP reply, or an ARP
message sent via `chirouter_send_arp_message` (interface, target hardware
address or `none` for a broadcast request, target protocol address,
opcode). -/
inductive TxEvent where
  | fwd (iface : Interface) (f : Frame)
  | icmp (iface : Interface) (r : IcmpReply)
  | arp (iface : Interface) (tha : Option (List Nat)) (tpa : Nat) (op : Nat)
deriving DecidableEq, Repr

/-- Result of one dispatch call: normal return with value, final state and
emitted transmissions; a null-pointer dereference (`crash`); or falling off
the end of the function without a `return` (undefined return value). -/
inductive DispatchResult where
  | ok (ret : Int) (st : Ctx) (out : List TxEvent)
  | crash
  | undefRet (st : Ctx) (out : List TxEvent)
deriving DecidableEq, Repr

/-! ## Routing table -/

/-- `get_forward_ip` (router.c:69): the gateway if nonzero, else the
datagram's destination. -/
def get_forward_ip (e : RtEntry) (dst : Nat) : Nat :=
  if e.gw ≠ 0 then e.gw else dst

/-- The matching condition of `chirouter_get_matching_entry` (router.c:88):
`(ip_hdr->dst & entry_mask) == entry_dst`. -/
def rtMatches (dst : Nat) (e : RtEntry) : Prop := Nat.land dst e.mask = e.dest

instance (dst : Nat) (e : RtEntry) : Decidable (rtMatches dst e) := by
  unfold rtMatches; infer_instance

/-- One iteration of the loop body of `chirouter_get_matching_entry`
(router.c:84-103): keep the running result unless the entry matches and
either no result is held yet or the held result's mask is strictly
smaller. -/
def matchStep (dst : Nat) (result : Option RtEntry) (e : RtEntry) : Option RtEntry :=
  if rtMatches dst e then
    match result with
    | some r => if r.mask < e.mask then some e else some r
    | none => some e
  else result

/-- The loop of `chirouter_get_matching_entry` over the routing table. -/
def lpmLookup (rt : List RtEntry) (dst : Nat) : Option RtEntry :=
  rt.foldl (matchStep dst) none

/-- `chirouter_get_matching_entry` (router.c:79): longest-prefix lookup of
the frame's IP destination in the routing table. -/
def chirouter_get_matching_entry (ctx : Ctx) (f : Frame) : Option RtEntry :=
  lpmLookup ctx.routing_table f.ip.dst

/-- `chirouter_find_match_router` (router.c:127): does the frame's IP
destination equal the IP of any of this router's interfaces? -/
def chirouter_find_match_router (ctx : Ctx) (f : Frame) : Bool :=
  ctx.interfaces.any (fun i => i.ip == f.ip.dst)

/-! ## ARP resolution subsystem state

`arp.c` is not part of the repository; these helpers are modelled from the
spec (section 4.3): the cache holds at most one live entry per IP with
last-writer-wins overwrite; a pending request is looked up by its target
IP; withheld frames form a FIFO list per pending request, each enqueued
frame being a deep copy (Lean values are copies by construction). -/

def findCacheEntry : List ArpCacheEntry → Nat → Option ArpCacheEntry
  | [], _ => none
  | e :: es, ip => if e.ip = ip then some e else findCacheEntry es ip

/-- Modelled from the spec: `chirouter_arp_cache_lookup` - pure read of the
cache entry for `ip`. -/
def chirouter_arp_cache_lookup (ctx : Ctx) (ip : Nat) : Option ArpCacheEntry :=
  findCacheEntry ctx.arp_cache ip

/-- Modelled from the spec: `chirouter_arp_cache_add` - insert/overwrite
the cache entry for `ip` (last-writer-wins). -/
def chirouter_arp_cache_add (ctx : Ctx) (ip : Nat) (mac : List Nat) : Ctx :=
  { ctx with arp_cache := ⟨ip, mac⟩ :: ctx.arp_cache.filter (fun e => e.ip ≠ ip) }

def findPendingReq : List PendingReq → Nat → Option PendingReq
  | [], _ => none
  | p :: ps, ip => if p.ip = ip then some p else findPendingReq ps ip

/-- Modelled from the spec: `chirouter_arp_pending_req_lookup` - the
pending request whose target IP is `ip`, if any. -/
def chirouter_arp_pending_req_lookup (ctx : Ctx) (ip : Nat) : Option PendingReq :=
  findPendingReq ctx.pending_arp_reqs ip

/-- Modelled from the spec: `chirouter_arp_pending_req_add` - create a new
pending request for `ip` with an empty withheld-frame list. -/
def chirouter_arp_pending_req_add (ctx : Ctx) (ip : Nat) (iface : Interface) : Ctx :=
  { ctx with pending_arp_reqs := ctx.pending_arp_reqs ++ [⟨ip, iface, []⟩] }

/-- Append a frame to the withheld-frame list of the first pending request
for `ip` (the one `chirouter_arp_pending_req_lookup` returns; at most one
pending request per IP exists in reachable states). -/
def addFrameFirst : List PendingReq → Nat → Frame → List PendingReq
  | [], _, _ => []
  | p :: ps, ip, f =>
    if p.ip = ip then { p with frames := p.frames ++ [f] } :: ps
    else p :: addFrameFirst ps ip f

/-- Modelled from the spec: `chirouter_arp_pending_req_add_frame` - append
a deep copy of the frame to the pending request's FIFO list. -/
def chirouter_arp_pending_req_add_frame (ctx : Ctx) (ip : Nat) (f : Frame) : Ctx :=
  { ctx with pending_arp_reqs := addFrameFirst ctx.pending_arp_reqs ip f }

/-- Remove the first pending request for `ip` (`DL_DELETE` of the node the
lookup returned, after `chirouter_arp_pending_req_free_frames`). -/
def removeFirstPendingReq : List PendingReq → Nat → List PendingReq
  | [], _ => []
  | p :: ps, ip => if p.ip = ip then ps else p :: removeFirstPendingReq ps ip

def chirouter_arp_pending_req_delete (ctx : Ctx) (ip : Nat) : Ctx :=
  { ctx with pending_arp_reqs := removeFirstPendingReq ctx.pending_arp_reqs ip }

/-! ## IP forwarding engine -/

/-- `forward_ip_datagram` (router.c:108): decrement TTL (uint8 wraparound),
recompute the IP checksum over the header as it stands - the old checksum
value is still in the checksum field, it is not zeroed first - then look up
the routing entry again, overwrite the IP destination with
`get_forward_ip` (the gateway, when nonzero), and send the frame on the
matched entry's interface.  The Ethernet header is never touched.  A `none`
result models the null-pointer dereference of `rentry` when no routing
entry matches. -/
def forward_ip_datagram (ctx : Ctx) (f : Frame) : Option TxEvent :=
  let ip1 := { f.ip with ttl := (f.ip.ttl + 255) % 256 }
  let ip2 := { ip1 with cksum := cksum (ipHeaderBytes ip1) }
  match chirouter_get_matching_entry ctx { f with ip := ip2 } with
  | none => none
  | some rentry =>
    let ip3 := { ip2 with dst := get_forward_ip rentry ip2.dst }
    some (.fwd rentry.iface { f with ip := ip3 })

/-- Forward every withheld frame in list order (the `DL_FOREACH` drain loop,
router.c:397-401); `none` if any forward dereferences a null routing
entry. -/
def forwardAll (ctx : Ctx) : List Frame → Option (List TxEvent)
  | [] => some []
  | f :: fs =>
    match forward_ip_datagram ctx f with
    | none => none
    | some ev => (forwardAll ctx fs).map (ev :: ·)

/-! ## ICMP synthesizer -/

/-- `chirouter_send_icmp` (router.c:143): build and transmit an ICMP
message on the frame's ingress interface.  Notable source details modelled
faithfully: the echo payload length is the total IP length minus
`ICMP_HDR_SIZE` (not minus the IP header size); the echo sequence number is
copied from the request and then immediately overwritten with 0
(router.c:205-206); for destination-unreachable and time-exceeded the body
is `memcpy`'d from `reply_ip_hdr` - the reply's own freshly built IP header
followed by the first 8 bytes of the reply's own ICMP message (type, code,
zeroed checksum, zeroed type-specific word) - not from the offending
frame. -/
def chirouter_send_icmp (t code : Nat) (f : Frame) : TxEvent :=
  let payload_len : Nat :=
    if t = ICMPTYPE_ECHO_REPLY ∨ t = ICMPTYPE_ECHO_REQUEST then f.ip.len - ICMP_HDR_SIZE
    else 20 + 8
  let reply_len := 14 + 20 + ICMP_HDR_SIZE + payload_len
  let ipLen : Nat :=
    if t = ICMPTYPE_ECHO_REPLY ∨ t = ICMPTYPE_ECHO_REQUEST then f.length - 14
    else 20 + ICMP_HDR_SIZE + payload_len
  let base : IPHeader :=
    ⟨4, 5, 0, ipLen, 0, 0, 64, 1, 0, f.inInterface.ip, f.ip.src⟩
  let replyIp := { base with cksum := cksum (ipHeaderBytes base) }
  let isEcho := t = ICMPTYPE_ECHO_REQUEST ∨ t = ICMPTYPE_ECHO_REPLY
  let eId := if isEcho ∧ code = 0 then icmpEchoId f else 0
  let eSeq : Nat := 0
  let body : List Nat :=
    if isEcho ∧ code = 0 then memBytes f.ipPayload ICMP_HDR_SIZE payload_len
    else if isEcho then List.replicate payload_len 0
    else ipHeaderBytes replyIp ++ [t % 256, code % 256, 0, 0, 0, 0, 0, 0]
  let ck := cksum ([t % 256, code % 256, 0, 0, eId / 256 % 256, eId % 256, 0, 0] ++ body)
  .icmp f.inInterface
    ⟨f.ethSrc, f.inInterface.mac, ETHERTYPE_IP, replyIp, t, code, ck, eId, eSeq, body, reply_len⟩

/-! ## Frame dispatcher -/

/-- The IPv4/IPv6 branch of `chirouter_process_ethernet_frame`
(router.c:272-371). -/
def ipPath (ctx : Ctx) (f : Frame) : DispatchResult :=
  if f.ip.dst = f.inInterface.ip then
    if f.ip.proto = IPPROTO_TCP ∨ f.ip.proto = IPPROTO_UDP then
      .ok 0 ctx [chirouter_send_icmp ICMPTYPE_DEST_UNREACHABLE ICMPCODE_DEST_PORT_UNREACHABLE f]
    else if f.ip.ttl = 1 then
      .ok 0 ctx [chirouter_send_icmp ICMPTYPE_TIME_EXCEEDED 0 f]
    else if f.ip.proto = IPPROTO_ICMP then
      if icmpTypeOf f = ICMPTYPE_ECHO_REQUEST then
        .ok 0 ctx [chirouter_send_icmp ICMPTYPE_ECHO_REPLY 0 f]
      else
        .ok 0 ctx []
    else
      .ok 0 ctx [chirouter_send_icmp ICMPTYPE_DEST_UNREACHABLE ICMPCODE_DEST_PROTOCOL_UNREACHABLE f]
  else if chirouter_find_match_router ctx f then
    .ok 0 ctx [chirouter_send_icmp ICMPTYPE_DEST_UNREACHABLE ICMPCODE_DEST_HOST_UNREACHABLE f]
  else
    match chirouter_get_matching_entry ctx f with
    | some forward_entry =>
      let forward_ip := get_forward_ip forward_entry f.ip.dst
      match chirouter_arp_cache_lookup ctx forward_ip with
      | none =>
        match chirouter_arp_pending_req_lookup ctx forward_ip with
        | none =>
          let ctx1 := chirouter_arp_pending_req_add ctx forward_ip f.inInterface
          let ctx2 := chirouter_arp_pending_req_add_frame ctx1 forward_ip f
          .ok 0 ctx2 [.arp f.inInterface none forward_ip ARP_OP_REQUEST]
        | some _ =>
          .ok 0 (chirouter_arp_pending_req_add_frame ctx forward_ip f) []
      | some _ =>
        if f.ip.ttl = 1 then
          .ok 0 ctx [chirouter_send_icmp ICMPTYPE_TIME_EXCEEDED 0 f]
        else
          match forward_ip_datagram ctx f with
          | some ev => .ok 0 ctx [ev]
          | none => .crash
    | none =>
      .ok 0 ctx [chirouter_send_icmp ICMPTYPE_DEST_UNREACHABLE ICMPCODE_DEST_NET_UNREACHABLE f]

/-- The ARP branch of `chirouter_process_ethernet_frame`
(router.c:372-424).  On a reply the pending-request lookup is keyed by
`frame->in_interface->ip` - the ingress interface's own IP, not the reply's
sender IP (router.c:395); a failed lookup is a null-pointer dereference in
the `DL_FOREACH` that follows. -/
def arpPath (ctx : Ctx) (f : Frame) : DispatchResult :=
  if f.arp.tpa = f.inInterface.ip then
    if f.arp.op = ARP_OP_REPLY then
      let ctx1 := chirouter_arp_cache_add ctx f.arp.spa f.arp.sha
      match chirouter_arp_pending_req_lookup ctx1 f.inInterface.ip with
      | none => .crash
      | some arp_req =>
        match forwardAll ctx1 arp_req.frames with
        | none => .crash
        | some evs => .ok 0 (chirouter_arp_pending_req_delete ctx1 f.inInterface.ip) evs
    else if f.arp.op = ARP_OP_REQUEST then
      .ok 0 ctx [.arp f.inInterface (some f.arp.sha) f.arp.spa ARP_OP_REPLY]
    else
      .ok 0 ctx []
  else
    .ok 0 ctx []

/-- `chirouter_process_ethernet_frame` (router.c:262): classify by
EtherType - IPv4 and IPv6 both go to the IP path, ARP to the ARP path, and
any other EtherType falls off the end of the function without a `return`
statement. -/
def chirouter_process_ethernet_frame (ctx : Ctx) (f : Frame) : DispatchResult :=
  if f.ethType = ETHERTYPE_IP ∨ f.ethType = ETHERTYPE_IPV6 then ipPath ctx f
  else if f.ethType = ETHERTYPE_ARP then arpPath ctx f
  else .undefRet ctx []

/-! ## Result and event projections (used to state concrete claims) -/

def resultOut : DispatchResult → List TxEvent
  | .ok _ _ out => out
  | .crash => []
  | .undefRet _ out => out

def resultCtx : DispatchResult → Option Ctx
  | .ok _ st _ => some st
  | .crash => none
  | .undefRet st _ => some st

def fwdTtl : TxEvent → Option Nat
  | .fwd _ g => some g.ip.ttl
  | _ => none

def icmpTypeCode : TxEvent → Option (Nat × Nat)
  | .icmp _ r => some (r.icmpType, r.icmpCode)
  | _ => none

def icmpSeqOf : TxEvent → Option Nat
  | .icmp _ r => some r.echoSeq
  | _ => none

def icmpIdOf : TxEvent → Option Nat
  | .icmp _ r => some r.echoId
  | _ => none

def icmpBodyOf : TxEvent → Option (List Nat)
  | .icmp _ r => some r.body
  | _ => none

/-- The claim side of C5: the body the spec prescribes for an ICMP error -
the offending datagram's IP header bytes followed by the first 8 bytes of
its payload. -/
def claimedErrorBody (f : Frame) : List Nat :=
  ipHeaderBytes f.ip ++ f.ipPayload.take 8

/-- The claim side of C1: the checksum recomputed with the checksum field
zeroed first. -/
def zeroedRecompute (h : IPHeader) : Nat :=
  cksum (ipHeaderBytes { h with cksum := 0 })

def sentFrameOf : Option TxEvent → Option Frame
  | some (.fwd _ g) => some g
  | _ => none

def sentIfaceOf : Option TxEvent → Option Interface
  | some (.fwd i _) => some i
  | _ => none

/-! ## EtherType normalization (used to compare IPv6- and IPv4-tagged
dispatch, whose only difference is the EtherType bytes retained inside
forwarded or withheld copies of the input frame) -/

def scrubFrame (g : Frame) : Frame := { g with ethType := 0 }

def scrubEvent : TxEvent → TxEvent
  | .fwd i g => .fwd i (scrubFrame g)
  | ev => ev

def scrubPending (p : PendingReq) : PendingReq := { p with frames := p.frames.map scrubFrame }

def scrubCtx (c : Ctx) : Ctx := { c with pending_arp_reqs := c.pending_arp_reqs.map scrubPending }

def scrubResult : DispatchResult → DispatchResult
  | .ok r st out => .ok r (scrubCtx st) (out.map scrubEvent)
  | .crash => .crash
  | .undefRet st out => .undefRet (scrubCtx st) (out.map scrubEvent)

/-! ## Concrete data used to evaluate the code on specific inputs -/

def ifA : Interface := ⟨[1, 1, 1, 1, 1, 1], 100⟩

def ifB : Interface := ⟨[2, 2, 2, 2, 2, 2], 200⟩

def nullArp : ArpView := ⟨0, [], 0, [], 0⟩

/-- A routing entry matching everything, with gateway 777 and egress
interface `ifB`. -/
def rGw : RtEntry := ⟨0, 0, 777, ifB⟩

def ctx1 : Ctx := ⟨[ifA], [rGw], [], []⟩

/-- A TCP datagram from 10 to 300, TTL 50, with a stale nonzero checksum
field. -/
def f1 : Frame :=
  ⟨[9, 9, 9, 9, 9, 9], [8, 8, 8, 8, 8, 8], 2048,
   ⟨4, 5, 0, 40, 1, 0, 50, 6, 48879, 10, 300⟩, [], nullArp, ifA, 54⟩

def ctx2 : Ctx := ⟨[ifA], [], [], []⟩

/-- A self-destined ICMP echo-request: identifier 5, sequence number 7,
payload bytes `[1, 2, 3]` (total IP length 31 = 20 + 8 + 3). -/
def fE : Frame :=
  ⟨[9, 9, 9, 9, 9, 9], [7, 7, 7, 7, 7, 7], 2048,
   ⟨4, 5, 0, 31, 0, 0, 64, 1, 0, 55, 100⟩,
   [8, 0, 0, 0, 0, 5, 0, 7, 1, 2, 3], nullArp, ifA, 45⟩

/-- A routing entry matching everything, directly connected (gateway 0),
egress interface `ifB`. -/
def rAll : RtEntry := ⟨0, 0, 0, ifB⟩

/-- A withheld TCP datagram whose TTL is 1. -/
def fQ : Frame :=
  ⟨[9, 9, 9, 9, 9, 9], [8, 8, 8, 8, 8, 8], 2048,
   ⟨4, 5, 0, 40, 1, 0, 1, 6, 0, 10, 300⟩, [], nullArp, ifA, 54⟩

/-- State with a pending ARP request (holding the TTL=1 frame `fQ`) keyed
by `ifA`'s own IP - the only key the reply path's lookup can ever hit. -/
def ctx3 : Ctx := ⟨[ifA], [rAll], [], [⟨100, ifA, [fQ]⟩]⟩

/-- An ARP reply from sender IP 555 addressed to `ifA`'s IP. -/
def fR3 : Frame :=
  ⟨[1, 1, 1, 1, 1, 1], [3, 3, 3, 3, 3, 3], 2054,
   ⟨0, 0, 0, 0, 0, 0, 0, 0, 0, 0, 0⟩, [],
   ⟨2, [3, 3, 3, 3, 3, 3], 555, [1, 1, 1, 1, 1, 1], 100⟩, ifA, 60⟩

/-- State with a pending ARP request keyed by next-hop IP 555 - the IP the
reply `fR3` resolves. -/
def ctx4 : Ctx := ⟨[ifA], [rAll], [], [⟨555, ifA, [fQ]⟩]⟩

/-- State with no pending ARP requests at all (a cache entry exists). -/
def ctx9 : Ctx := ⟨[ifA], [], [⟨9, [4, 4, 4, 4, 4, 4]⟩], []⟩

/-- A duplicate ARP reply from sender IP 321 addressed to `ifA`'s IP. -/
def fR9 : Frame :=
  ⟨[1, 1, 1, 1, 1, 1], [3, 3, 3, 3, 3, 3], 2054,
   ⟨0, 0, 0, 0, 0, 0, 0, 0, 0, 0, 0⟩, [],
   ⟨2, [6, 6, 6, 6, 6, 6], 321, [1, 1, 1, 1, 1, 1], 100⟩, ifA, 60⟩

def ctx5 : Ctx := ⟨[ifA], [], [], []⟩

/-- A TCP datagram to 300 with no matching route; its IP header and first
payload bytes differ everywhere from the ICMP reply's own header. -/
def f5 : Frame :=
  ⟨[9, 9, 9, 9, 9, 9], [8, 8, 8, 8, 8, 8], 2048,
   ⟨4, 5, 0, 40, 7, 0, 9, 6, 2, 44, 300⟩,
   [9, 9, 9, 9, 9, 9, 9, 9, 9, 9], nullArp, ifA, 54⟩

def ctx8 : Ctx := ⟨[ifA], [], [], []⟩

/-- A self-destined ICMP datagram whose ICMP type is echo-reply (0), TTL
64. -/
def f8 : Frame :=
  ⟨[9, 9, 9, 9, 9, 9], [8, 8, 8, 8, 8, 8], 2048,
   ⟨4, 5, 0, 28, 0, 0, 64, 1, 0, 55, 100⟩,
   [0, 0, 0, 0, 0, 0, 0, 0], nullArp, ifA, 42⟩

/-- The route 10.0.0.0/8. -/
def route8 : RtEntry := ⟨167772160, 4278190080, 0, ifA⟩

/-- The route 10.0.0.0/24. -/
def route24 : RtEntry := ⟨167772160, 4294967040, 0, ifB⟩

/-- A routing entry matching everything, directly connected, egress
`ifB`. -/
def rW : RtEntry := ⟨0, 0, 0, ifB⟩

def ctx7 : Ctx := ⟨[ifA], [rW], [], []⟩

/-- A TCP datagram to 42 (unresolved next hop, directly connected). -/
def f7 : Frame :=
  ⟨[9, 9, 9, 9, 9, 9], [8, 8, 8, 8, 8, 8], 2048,
   ⟨4, 5, 0, 40, 1, 0, 50, 6, 0, 10, 42⟩, [], nullArp, ifA, 54⟩

/-- State with a resolved ARP cache entry for next-hop 300. -/
def ctxX : Ctx := ⟨[ifA], [rAll], [⟨300, [5, 5, 5, 5, 5, 5]⟩], []⟩

/-- A TCP datagram to 300, TTL 9; its EtherType field is set per claim. -/
def fX : Frame :=
  ⟨[9, 9, 9, 9, 9, 9], [8, 8, 8, 8, 8, 8], 2048,
   ⟨4, 5, 0, 40, 1, 0, 9, 6, 0, 10, 300⟩, [], nullArp, ifA, 54⟩

/-! ## Characterization of the routing-table loop -/

theorem matchStep_eq_none {dst : Nat} {acc : Option RtEntry} {e : RtEntry} :
    matchStep dst acc e = none ↔ acc = none ∧ ¬ rtMatches dst e := by
  by_cases h : rtMatches dst e
  · cases acc <;> simp [matchStep, h]
    split <;> simp
  · simp [matchStep, h]

theorem foldl_matchStep_none (dst : Nat) :
    ∀ (l : List RtEntry) (acc : Option RtEntry),
      l.foldl (matchStep dst) acc = none ↔ acc = none ∧ ∀ e ∈ l, ¬ rtMatches dst e := by
  intro l
  induction l with
  | nil => intro acc; simp
  | cons e l ih =>
    intro acc
    rw [List.foldl_cons, ih, matchStep_eq_none]
    constructor
    · rintro ⟨⟨h1, h2⟩, h3⟩
      refine ⟨h1, ?_⟩
      intro x hx
      rcases List.mem_cons.mp hx with rfl | hx
      · exact h2
      · exact h3 x hx
    · rintro ⟨h1, h2⟩
      exact ⟨⟨h1, h2 e (List.mem_cons_self e l)⟩, fun x hx => h2 x (List.mem_cons_of_mem e hx)⟩

theorem foldl_matchStep_some (dst : Nat) :
    ∀ (l : List RtEntry) (acc : Option RtEntry) (r : RtEntry),
      l.foldl (matchStep dst) acc = some r →
      (acc = some r ∧ ∀ e ∈ l, rtMatches dst e → e.mask ≤ r.mask)
      ∨ (∃ l1 l2, l = l1 ++ r :: l2 ∧ rtMatches dst r ∧
          (∀ a, acc = some a → a.mask < r.mask) ∧
          (∀ e ∈ l1, rtMatches dst e → e.mask < r.mask) ∧
          (∀ e ∈ l2, rtMatches dst e → e.mask ≤ r.mask)) := by
  intro l
  induction l with
  | nil =>
    intro acc r h
    left
    exact ⟨h, by simp⟩
  | cons e l ih =>
    intro acc r h
    rw [List.foldl_cons] at h
    rcases ih (matchStep dst acc e) r h with ⟨hstep, hl⟩ | ⟨l1, l2, hdec, hm, hacc, h1, h2⟩
    · by_cases hme : rtMatches dst e
      · cases acc with
        | none =>
          have he : e = r := by simpa [matchStep, hme] using hstep
          subst he
          right
          exact ⟨[], l, by simp, hme, by simp, by simp, hl⟩
        | some a =>
          by_cases hlt : a.mask < e.mask
          · have he : e = r := by simpa [matchStep, hme, hlt] using hstep
            subst he
            right
            refine ⟨[], l, by simp, hme, ?_, by simp, hl⟩
            intro a' ha'
            cases ha'
            exact hlt
          · have ha : a = r := by simpa [matchStep, hme, hlt] using hstep
            subst ha
            left
            refine ⟨rfl, ?_⟩
            intro x hx hmx
            rcases List.mem_cons.mp hx with rfl | hx
            · exact Nat.le_of_not_lt hlt
            · exact hl x hx hmx
      · have hacc : acc = some r := by simpa [matchStep, hme] using hstep
        left
        refine ⟨hacc, ?_⟩
        intro x hx hmx
        rcases List.mem_cons.mp hx with rfl | hx
        · exact absurd hmx hme
        · exact hl x hx hmx
    · right
      refine ⟨e :: l1, l2, by simp [hdec], hm, ?_, ?_, h2⟩
      · intro a ha
        subst ha
        by_cases hme : rtMatches dst e
        · by_cases hlt : a.mask < e.mask
          · exact lt_trans hlt (hacc e (by simp [matchStep, hme, hlt]))
          · exact hacc a (by simp [matchStep, hme, hlt])
        · exact hacc a (by simp [matchStep, hme])
      · intro x hx hmx
        rcases List.mem_cons.mp hx with rfl | hx
        · cases acc with
          | none => exact hacc x (by simp [matchStep, hmx])
          | some a =>
            by_cases hlt : a.mask < x.mask
            · exact hacc x (by simp [matchStep, hmx, hlt])
            · exact lt_of_le_of_lt (Nat.le_of_not_lt hlt) (hacc a (by simp [matchStep, hmx, hlt]))
        · exact h1 x hx hmx

/-! ## Pending-request list lemmas -/

theorem findPendingReq_none_addFrame (l : List PendingReq) (ip : Nat) (iface : Interface) (f : Frame) :
    findPendingReq l ip = none →
    addFrameFirst (l ++ [⟨ip, iface, []⟩]) ip f = l ++ [⟨ip, iface, [f]⟩] := by
  induction l with
  | nil => intro _; simp [addFrameFirst]
  | cons p ps ih =>
    intro h
    rw [findPendingReq] at h
    by_cases hp : p.ip = ip
    · simp [hp] at h
    · rw [if_neg hp] at h
      simp [addFrameFirst, hp, ih h]

theorem findPendingReq_some_decomp (l : List PendingReq) (ip : Nat) :
    ∀ p, findPendingReq l ip = some p →
      p.ip = ip ∧ ∃ l1 l2, l = l1 ++ p :: l2 ∧ (∀ q ∈ l1, q.ip ≠ ip) := by
  induction l with
  | nil => intro p h; simp [findPendingReq] at h
  | cons q qs ih =>
    intro p h
    rw [findPendingReq] at h
    by_cases hq : q.ip = ip
    · rw [if_pos hq] at h
      cases h
      exact ⟨hq, [], qs, by simp, by simp⟩
    · rw [if_neg hq] at h
      obtain ⟨hip, l1, l2, hdec, hl1⟩ := ih p h
      refine ⟨hip, q :: l1, l2, by simp [hdec], ?_⟩
      intro x hx
      rcases List.mem_cons.mp hx with rfl | hx
      · exact hq
      · exact hl1 x hx

theorem addFrameFirst_on_decomp :
    ∀ (l1 : List PendingReq) (p : PendingReq) (l2 : List PendingReq) (ip : Nat) (f : Frame),
      (∀ q ∈ l1, q.ip ≠ ip) → p.ip = ip →
      addFrameFirst (l1 ++ p :: l2) ip f = l1 ++ { p with frames := p.frames ++ [f] } :: l2 := by
  intro l1
  induction l1 with
  | nil => intro p l2 ip f _ hp; simp [addFrameFirst, hp]
  | cons q qs ih =>
    intro p l2 ip f h1 hp
    have hq : q.ip ≠ ip := h1 q (List.mem_cons_self q qs)
    have hrec := ih p l2 ip f (fun x hx => h1 x (List.mem_cons_of_mem q hx)) hp
    simp [addFrameFirst, hq, hrec]

/-! ## EtherType-invariance lemmas for the IP path -/

theorem addFrameFirst_map_scrub (l : List PendingReq) (ip : Nat) (g : Frame) :
    (addFrameFirst l ip g).map scrubPending =
    addFrameFirst (l.map scrubPending) ip (scrubFrame g) := by
  induction l with
  | nil => simp [addFrameFirst]
  | cons p ps ih =>
    by_cases hp : p.ip = ip
    · simp [addFrameFirst, scrubPending, hp]
    · simp [addFrameFirst, scrubPending, hp, ih]

theorem forward_ip_datagram_scrub (ctx : Ctx) (d s : List Nat) (ih : IPHeader)
    (pl : List Nat) (av : ArpView) (ifc : Interface) (len t1 t2 : Nat) :
    (forward_ip_datagram ctx ⟨d, s, t1, ih, pl, av, ifc, len⟩).map scrubEvent =
    (forward_ip_datagram ctx ⟨d, s, t2, ih, pl, av, ifc, len⟩).map scrubEvent := by
  unfold forward_ip_datagram chirouter_get_matching_entry
  dsimp only
  rcases hl : lpmLookup ctx.routing_table ih.dst with _ | rentry <;>
    simp [hl, scrubEvent, scrubFrame]

theorem ipPath_scrub (ctx : Ctx) (d s : List Nat) (ih : IPHeader)
    (pl : List Nat) (av : ArpView) (ifc : Interface) (len t1 t2 : Nat) :
    scrubResult (ipPath ctx ⟨d, s, t1, ih, pl, av, ifc, len⟩) =
    scrubResult (ipPath ctx ⟨d, s, t2, ih, pl, av, ifc, len⟩) := by
  unfold ipPath chirouter_get_matching_entry chirouter_arp_cache_lookup
    chirouter_arp_pending_req_lookup chirouter_find_match_router icmpTypeOf
  dsimp only
  by_cases h1 : ih.dst = ifc.ip
  · simp only [if_pos h1]
    by_cases h2 : ih.proto = IPPROTO_TCP ∨ ih.proto = IPPROTO_UDP
    · simp only [if_pos h2]; rfl
    · simp only [if_neg h2]
      by_cases h3 : ih.ttl = 1
      · simp only [if_pos h3]; rfl
      · simp only [if_neg h3]
        by_cases h4 : ih.proto = IPPROTO_ICMP
        · simp only [if_pos h4]
          by_cases h5 : pl.getD 0 0 = ICMPTYPE_ECHO_REQUEST
          · simp only [if_pos h5]; rfl
          · simp only [if_neg h5]
        · simp only [if_neg h4]; rfl
  · simp only [if_neg h1]
    by_cases h2 : (ctx.interfaces.any fun i => i.ip == ih.dst) = true
    · simp only [if_pos h2]; rfl
    · simp only [if_neg h2]
      rcases hr : lpmLookup ctx.routing_table ih.dst with _ | fe
      · simp only [hr]; rfl
      · simp only [hr]
        rcases hc : findCacheEntry ctx.arp_cache (get_forward_ip fe ih.dst) with _ | ce
        · simp only [hc]
          rcases hp : findPendingReq ctx.pending_arp_reqs (get_forward_ip fe ih.dst) with _ | pe
          · simp only [hp]
            simp only [scrubResult, scrubCtx, chirouter_arp_pending_req_add,
              chirouter_arp_pending_req_add_frame, addFrameFirst_map_scrub, List.map_append]
            rfl
          · simp only [hp]
            simp only [scrubResult, scrubCtx, chirouter_arp_pending_req_add_frame,
              addFrameFirst_map_scrub]
            rfl
        · simp only [hc]
          by_cases h3 : ih.ttl = 1
          · simp only [if_pos h3]; rfl
          · simp only [if_neg h3]
            have hfw := forward_ip_datagram_scrub ctx d s ih pl av ifc len t1 t2
            rcases hf1 : forward_ip_datagram ctx ⟨d, s, t1, ih, pl, av, ifc, len⟩ with _ | ev1 <;>
              rcases hf2 : forward_ip_datagram ctx ⟨d, s, t2, ih, pl, av, ifc, len⟩ with _ | ev2 <;>
              rw [hf1, hf2] at hfw <;> simp_all [scrubResult]

/-! ## The claims -/

/-- C1: the claim states that forwarding a datagram with TTL > 1 and a
matching routing entry decrements TTL by 1, recomputes the checksum with
the checksum field zeroed first, rewrites the Ethernet source MAC to the
egress interface's MAC and the destination MAC to the next-hop MAC, leaves
the IP destination unchanged, and transmits on the matched entry's egress
interface.  Evaluating `forward_ip_datagram` on a concrete datagram
(TTL 50, route with gateway 777) shows what the code actually does: it does
transmit on the matched entry's egress interface, but both Ethernet MACs
are left exactly as they arrived (the source MAC is not the egress MAC),
the IP destination is overwritten with the gateway 777, and the checksum
differs from the checksum-field-zeroed recomputation because the stale
checksum value is summed in. -/
theorem c1_forward_code_behavior :
    sentIfaceOf (forward_ip_datagram ctx1 f1) = some rGw.iface ∧
    (sentFrameOf (forward_ip_datagram ctx1 f1)).map Frame.ethSrc = some f1.ethSrc ∧
    f1.ethSrc ≠ rGw.iface.mac ∧
    (sentFrameOf (forward_ip_datagram ctx1 f1)).map Frame.ethDst = some f1.ethDst ∧
    (sentFrameOf (forward_ip_datagram ctx1 f1)).map (fun g => g.ip.ttl) = some 49 ∧
    (sentFrameOf (forward_ip_datagram ctx1 f1)).map (fun g => g.ip.dst) = some 777 ∧
    f1.ip.dst = 300 ∧
    (sentFrameOf (forward_ip_datagram ctx1 f1)).map (fun g => g.ip.cksum) ≠
      some (zeroedRecompute { f1.ip with ttl := 49 }) := by decide

/-- C2: the claim states that a self-destined echo-request reaching the
echo branch yields exactly one echo-reply whose identifier, sequence number
and payload bytes equal the request's.  Evaluating the dispatcher on a
concrete echo-request (identifier 5, sequence 7, payload `[1, 2, 3]`) shows
the code emits exactly one echo-reply and copies the identifier, but its
sequence number is 0 (router.c:206 overwrites the copied value) and its
body is not the request's payload (the length `ntohs(len) - ICMP_HDR_SIZE`
over-copies by the 20-byte IP header size). -/
theorem c2_echo_code_behavior :
    (resultOut (chirouter_process_ethernet_frame ctx2 fE)).filterMap icmpTypeCode = [(0, 0)] ∧
    (resultOut (chirouter_process_ethernet_frame ctx2 fE)).filterMap icmpIdOf = [icmpEchoId fE] ∧
    icmpEchoId fE = 5 ∧
    (resultOut (chirouter_process_ethernet_frame ctx2 fE)).filterMap icmpSeqOf = [0] ∧
    icmpEchoSeq fE = 7 ∧
    (resultOut (chirouter_process_ethernet_frame ctx2 fE)).filterMap icmpBodyOf ≠
      [icmpEchoPayload fE] := by decide

/-- C3: the claim states that when an ARP reply drains a pending request,
each withheld frame is independently TTL-checked and a frame with TTL 1 is
answered with time-exceeded instead of being forwarded.  Evaluating the
dispatcher on a concrete drain whose single withheld frame has TTL 1 shows
the code performs no TTL check: the frame is forwarded with its TTL
decremented to 0 and no ICMP message of any kind is emitted. -/
theorem c3_drain_code_behavior :
    fQ.ip.ttl = 1 ∧
    (resultOut (chirouter_process_ethernet_frame ctx3 fR3)).filterMap fwdTtl = [0] ∧
    (resultOut (chirouter_process_ethernet_frame ctx3 fR3)).filterMap icmpTypeCode = [] := by
  decide

/-- C4: the claim states that an ARP reply updates the cache for the
reply's sender IP and then drains the pending request keyed by that same
sender IP.  Evaluating the dispatcher on a concrete ARP reply (sender IP
555, ingress interface IP 100) with a pending request keyed by 555 shows
the code instead looks the pending request up by the ingress interface's
own IP (router.c:395), finds none, and dereferences the null result: the
dispatch crashes and the request for 555 is never drained. -/
theorem c4_reply_drain_code_behavior :
    fR3.arp.spa = 555 ∧
    findPendingReq ctx4.pending_arp_reqs 555 = some ⟨555, ifA, [fQ]⟩ ∧
    fR3.inInterface.ip = 100 ∧
    findPendingReq ctx4.pending_arp_reqs 100 = none ∧
    chirouter_process_ethernet_frame ctx4 fR3 = .crash := by decide

/-- C5: the claim states that every destination-unreachable or
time-exceeded message carries as its body the offending datagram's IP
header bytes followed by the first 8 bytes of that datagram's payload.
Evaluating the dispatcher on a concrete no-route datagram shows the body
does have length 20 + 8 = 28, but its bytes are not the offending header
plus payload: router.c:213 copies from `reply_ip_hdr`, the reply's own
freshly built IP header followed by the reply's own first 8 ICMP bytes. -/
theorem c5_error_body_code_behavior :
    (resultOut (chirouter_process_ethernet_frame ctx5 f5)).filterMap icmpTypeCode = [(3, 0)] ∧
    ((resultOut (chirouter_process_ethernet_frame ctx5 f5)).filterMap icmpBodyOf).map
      List.length = [28] ∧
    (resultOut (chirouter_process_ethernet_frame ctx5 f5)).filterMap icmpBodyOf ≠
      [claimedErrorBody f5] := by decide

/-- C6: routing-table lookup returns, among all entries with
`(destination & mask) == network`, one that matches, whose mask is
numerically greatest, and that is the first-inserted among the matching
entries of that mask (every earlier matching entry has a strictly smaller
mask); it returns `none` exactly when no entry matches; and with
overlapping routes 10.0.0.0/8 and 10.0.0.0/24 in the table, looking up
10.0.0.5 returns the /24 entry. -/
theorem c6_lpm_lookup_spec :
    (∀ (rt : List RtEntry) (dst : Nat),
      (lpmLookup rt dst = none ↔ ∀ e ∈ rt, ¬ rtMatches dst e) ∧
      (∀ r, lpmLookup rt dst = some r →
        rtMatches dst r ∧ (∀ e ∈ rt, rtMatches dst e → e.mask ≤ r.mask) ∧
        ∃ l1 l2, rt = l1 ++ r :: l2 ∧ (∀ e ∈ l1, rtMatches dst e → e.mask < r.mask)))
    ∧ lpmLookup [route8, route24] 167772165 = some route24 := by
  constructor
  · intro rt dst
    constructor
    · simpa [lpmLookup] using foldl_matchStep_none dst rt none
    · intro r h
      have h' := foldl_matchStep_some dst rt none r (by simpa [lpmLookup] using h)
      rcases h' with ⟨hc, _⟩ | ⟨l1, l2, hdec, hm, _, h1, h2⟩
      · simp at hc
      · refine ⟨hm, ?_, l1, l2, hdec, h1⟩
        intro e he hme
        rw [hdec] at he
        rcases List.mem_append.mp he with he1 | he2
        · exact Nat.le_of_lt (h1 e he1 hme)
        · rcases List.mem_cons.mp he2 with rfl | he2
          · exact le_refl _
          · exact h2 e he2 hme
  · decide

/-- Witness for C6 at the concrete overlapping-routes table. -/
theorem c6_lpm_lookup_spec_witness :
    rtMatches 167772165 route24 ∧
    (∀ e ∈ [route8, route24], rtMatches 167772165 e → e.mask ≤ route24.mask) ∧
    ∃ l1 l2, [route8, route24] = l1 ++ route24 :: l2 ∧
      (∀ e ∈ l1, rtMatches 167772165 e → e.mask < route24.mask) :=
  (c6_lpm_lookup_spec.1 [route8, route24] 167772165).2 route24 (by decide)

/-- C7: for a datagram on the forwarding path whose next-hop IP has no ARP
cache entry: if no pending request exists for that next-hop, the dispatch
sends exactly one ARP request and creates a pending request holding
exactly this frame; if a pending request already exists, the frame is
appended at the end of its withheld queue and no transmission at all (in
particular no ARP request) is produced. -/
theorem c7_request_or_enqueue (ctx : Ctx) (f : Frame) (e : RtEntry)
    (ht : f.ethType = ETHERTYPE_IP ∨ f.ethType = ETHERTYPE_IPV6)
    (hself : f.ip.dst ≠ f.inInterface.ip)
    (hother : chirouter_find_match_router ctx f = false)
    (hroute : chirouter_get_matching_entry ctx f = some e)
    (hcache : chirouter_arp_cache_lookup ctx (get_forward_ip e f.ip.dst) = none) :
    (chirouter_arp_pending_req_lookup ctx (get_forward_ip e f.ip.dst) = none →
      chirouter_process_ethernet_frame ctx f =
        .ok 0 { ctx with pending_arp_reqs :=
                  ctx.pending_arp_reqs ++ [⟨get_forward_ip e f.ip.dst, f.inInterface, [f]⟩] }
          [.arp f.inInterface none (get_forward_ip e f.ip.dst) ARP_OP_REQUEST])
    ∧ (∀ p, chirouter_arp_pending_req_lookup ctx (get_forward_ip e f.ip.dst) = some p →
        ∃ l1 l2, ctx.pending_arp_reqs = l1 ++ p :: l2 ∧
          (∀ q ∈ l1, q.ip ≠ get_forward_ip e f.ip.dst) ∧
          chirouter_process_ethernet_frame ctx f =
            .ok 0 { ctx with pending_arp_reqs :=
                      l1 ++ { p with frames := p.frames ++ [f] } :: l2 } []) := by
  constructor
  · intro hpend
    have hlist := findPendingReq_none_addFrame ctx.pending_arp_reqs
      (get_forward_ip e f.ip.dst) f.inInterface f
      (by simpa [chirouter_arp_pending_req_lookup] using hpend)
    rcases ht with ht | ht <;>
      simp [chirouter_process_ethernet_frame, ipPath, ht, hself, hother, hroute, hcache,
        hpend, chirouter_arp_pending_req_add, chirouter_arp_pending_req_add_frame, hlist,
        ETHERTYPE_IP, ETHERTYPE_IPV6, ETHERTYPE_ARP]
  · intro p hp
    obtain ⟨hip, l1, l2, hdec, hl1⟩ := findPendingReq_some_decomp ctx.pending_arp_reqs
      (get_forward_ip e f.ip.dst) p (by simpa [chirouter_arp_pending_req_lookup] using hp)
    refine ⟨l1, l2, hdec, hl1, ?_⟩
    have hadd := addFrameFirst_on_decomp l1 p l2 (get_forward_ip e f.ip.dst) f hl1 hip
    rcases ht with ht | ht <;>
      simp [chirouter_process_ethernet_frame, ipPath, ht, hself, hother, hroute, hcache,
        hp, chirouter_arp_pending_req_add_frame, hdec, hadd,
        ETHERTYPE_IP, ETHERTYPE_IPV6, ETHERTYPE_ARP]

/-- Witness for C7: concrete first frame to the unresolved next-hop 42 -
one ARP request, pending request created holding the frame. -/
theorem c7_request_or_enqueue_witness :
    chirouter_process_ethernet_frame ctx7 f7 =
      .ok 0 { ctx7 with pending_arp_reqs :=
                ctx7.pending_arp_reqs ++ [⟨get_forward_ip rW f7.ip.dst, f7.inInterface, [f7]⟩] }
        [.arp f7.inInterface none (get_forward_ip rW f7.ip.dst) ARP_OP_REQUEST] :=
  (c7_request_or_enqueue ctx7 f7 rW (Or.inl (by decide)) (by decide) (by decide) (by decide)
    (by decide)).1 (by decide)

/-- C8: the claim states that a self-destined datagram whose protocol is
ICMP, TTL not 1, and ICMP type not echo-request yields exactly one
dest-unreachable with code protocol-unreachable.  Evaluating the
dispatcher on a concrete such datagram (ICMP type 0, echo-reply) shows the
code emits nothing at all: the protocol-unreachable branch is only
reachable for non-ICMP protocols, and the ICMP branch silently ignores
every type other than echo-request. -/
theorem c8_proto_unreachable_code_behavior :
    f8.ip.dst = f8.inInterface.ip ∧
    f8.ip.proto = IPPROTO_ICMP ∧
    f8.ip.ttl = 64 ∧
    icmpTypeOf f8 = ICMPTYPE_ECHO_REPLY ∧
    chirouter_process_ethernet_frame ctx8 f8 = .ok 0 ctx8 [] := by decide

/-- C9: the claim states that an ARP reply for an IP with no pending
request updates the cache, forwards nothing, changes nothing else, and
returns success.  Evaluating the dispatcher on a concrete duplicate ARP
reply with an empty pending-request set shows the code dereferences the
null pending-request lookup result (router.c:395-397) and crashes instead
of returning success. -/
theorem c9_stale_reply_code_behavior :
    ctx9.pending_arp_reqs = [] ∧
    chirouter_process_ethernet_frame ctx9 fR9 = .crash := by decide

/-- C10 counterexample: dispatching the same bytes with EtherType IPv6 is
not identical to dispatching them with EtherType IPv4 - on a concrete
forwarding input the transmitted frame retains its original EtherType
field, so the two results differ. -/
theorem c10_ipv6_ipv4_not_identical :
    chirouter_process_ethernet_frame ctxX { fX with ethType := ETHERTYPE_IPV6 } ≠
    chirouter_process_ethernet_frame ctxX { fX with ethType := ETHERTYPE_IP } := by decide

/-- C10 (amended): dispatch with EtherType IPv6 sends the frame through
the full IPv4 decision tree, interpreting its bytes as an IPv4 header at
the IPv4 offsets, and produces the same ICMP, forwarding, and enqueue
actions as the IPv4-tagged frame - identical up to the EtherType field
retained inside forwarded or withheld copies of the input frame
(normalized here by `scrubResult`). -/
theorem c10_ipv6_ipv4_equal_after_ethtype_scrub :
    ∀ (ctx : Ctx) (f : Frame),
      scrubResult (chirouter_process_ethernet_frame ctx { f with ethType := ETHERTYPE_IPV6 }) =
      scrubResult (chirouter_process_ethernet_frame ctx { f with ethType := ETHERTYPE_IP }) := by
  intro ctx f
  rcases f with ⟨d, s, t, ih, pl, av, ifc, len⟩
  show scrubResult (chirouter_process_ethernet_frame ctx ⟨d, s, ETHERTYPE_IPV6, ih, pl, av, ifc, len⟩) =
    scrubResult (chirouter_process_ethernet_frame ctx ⟨d, s, ETHERTYPE_IP, ih, pl, av, ifc, len⟩)
  have e6 : chirouter_process_ethernet_frame ctx ⟨d, s, ETHERTYPE_IPV6, ih, pl, av, ifc, len⟩ =
      ipPath ctx ⟨d, s, ETHERTYPE_IPV6, ih, pl, av, ifc, len⟩ := rfl
  have e4 : chirouter_process_ethernet_frame ctx ⟨d, s, ETHERTYPE_IP, ih, pl, av, ifc, len⟩ =
      ipPath ctx ⟨d, s, ETHERTYPE_IP, ih, pl, av, ifc, len⟩ := rfl
  rw [e6, e4]
  exact ipPath_scrub ctx d s ih pl av ifc len ETHERTYPE_IPV6 ETHERTYPE_IP

end Chirouter
